import Mathlib

/-!
# MidiNetForwarder: a shallow embedding

Model of `app/src/main/cpp/MidiNetForwarder.cpp`, the JNI bridge that forwards
UMP packets between an AMidi device and a NetUMP session.

* Pointers are natural numbers, `nullptr` is `0`.
* `uint32_t` words are natural numbers below `2 ^ 32`; `int` values are
  integers, converted to `unsigned int` by reduction modulo `2 ^ 32`.
* Every call that leaves the translation unit (AMidi, NetUMP, pthread, logging)
  is recorded as an `Event`, in program order; what such a call returns is
  supplied by the caller of the model.
-/

namespace MidiNetForwarder

/-- Android log priorities the source file uses. -/
inductive LogLevel where
  | info
  | warn
  deriving DecidableEq, Repr

/-- The two pump threads. -/
inductive PumpThread where
  | readFromMIDI
  | readFromNetwork
  deriving DecidableEq, Repr

/-- Observable effects: calls into AMidi, NetUMP, pthread and the log, and
stores to the two atomic running flags. -/
inductive Event where
  | log (level : LogLevel) (msg : String)
  | AMidiDevice_fromJava (midiDeviceObj : Nat)
  | AMidiOutputPort_open (device : Nat) (portNumber : Int)
  | AMidiInputPort_open (device : Nat) (portNumber : Int)
  | newCNetUMPHandler
  | SetProductInstanceID (handler : Nat) (id : String)
  | SetEndpointName (handler : Nat) (name : String)
  | InitiateSession (handler : Nat) (destIP : Int) (destPort : Int)
      (localPort : Int) (initiator : Bool)
  | pthread_create (thread : PumpThread)
  | CloseSession (handler : Nat)
  | pthread_join (thread : PumpThread) (handle : Nat)
  | AMidiInputPort_close (port : Nat)
  | AMidiOutputPort_close (port : Nat)
  | AMidiDevice_release (device : Nat)
  | deleteCNetUMPHandler (handler : Nat)
  | AMidiInputPort_send (port : Nat) (words : List Nat) (numBytes : Nat)
  | AMidiOutputPort_receive (port : Nat) (maxBytes : Nat)
  | SendUMPMessage (handler : Nat) (msg : List Nat)
  | RunSession (handler : Nat)
  | storeMIDIReading (value : Bool)
  | storeNetworkReading (value : Bool)
  | usleep (micros : Nat)
  deriving DecidableEq, Repr

/-- The file-scope variables of the source file. -/
structure BridgeState where
  sMidiOutputPort : Nat
  sMidiInputPort : Nat
  sNativeMidiDevice : Nat
  sReadFromMIDIThread : Nat
  sReadFromNetworkThread : Nat
  sNetUMPHandler : Nat
  sUMPMsg : List Nat
  sMIDIReading : Bool
  sNetworkReading : Bool
  deriving DecidableEq, Repr

/-- Values of the static initialisers: null handles, cleared flags. -/
def initialState : BridgeState where
  sMidiOutputPort := 0
  sMidiInputPort := 0
  sNativeMidiDevice := 0
  sReadFromMIDIThread := 0
  sReadFromNetworkThread := 0
  sNetUMPHandler := 0
  sUMPMsg := [0, 0, 0, 0]
  sMIDIReading := false
  sNetworkReading := false

/-- Constants of the NDK headers, which are not part of the repository. -/
structure NdkConsts where
  AMEDIA_OK : Int
  AMIDI_OPCODE_DATA : Int

/-- Table `sUMPSize`: packet length in 32-bit words for each message type. -/
def sUMPSize : List Nat := [1, 1, 1, 2, 2, 4, 1, 1, 2, 2, 2, 3, 3, 4, 4, 4]

/-- Conversion of an `int` to `unsigned int`. -/
def toUnsigned (i : Int) : Nat := (i % 2 ^ 32).toNat

/-- Macro `LOGI`. -/
def LOGI (msg : String) : Event := Event.log .info msg

/-- Macro `LOGW`. -/
def LOGW (msg : String) : Event := Event.log .warn msg

/-- Macro `LOGE`; the source defines it with `ANDROID_LOG_INFO`. -/
def LOGE (msg : String) : Event := Event.log .info msg

/-- Macro `MAX_BYTES_TO_RECEIVE`. -/
def MAX_BYTES_TO_RECEIVE : Nat := 128

/-- Callback `onUMPMessage`.  `data` is the packet the session hands over and
`sendResult` the value `AMidiInputPort_send` returns should it be called,
stored in `int sent`.  The send is given `data` reinterpreted as bytes and a
byte count of `MTSize * 4`, that is the first `MTSize` words of the packet.
The test `sent < MTSize` compares an `int` with an `unsigned int`, so `sent` is
converted to `unsigned int` first. -/
def onUMPMessage (s : BridgeState) (data : List Nat) (sendResult : Int) : List Event :=
  if data.getD 0 0 &&& 0xFFFF0000 = 0xF0000000 then
    [LOGI "UMP Endpoint related UMP message"]
  else
    let MTSize := sUMPSize.getD (data.getD 0 0 >>> 28) 0
    let sent := sendResult
    [LOGI "UMP Message arrived, size: %d",
     Event.AMidiInputPort_send s.sMidiInputPort (data.take MTSize) (MTSize * 4)]
      ++ (if toUnsigned sent < MTSize then
            [LOGW "Could not send message, retval: %d"]
          else [])

/-- What one call of `AMidiOutputPort_receive` leaves behind: its return value
and the contents of `opcode`, `incomingMessage` and `numBytesReceived`. -/
structure ReceiveResult where
  numMessagesReceived : Int
  opcode : Int
  incomingMessage : List Nat
  numBytesReceived : Nat

/-- The transcoder `TranscodeMIDI1_UMP` of the NetUMP library, seen from this
file: from the source bytes, their count and the current contents of the
destination buffer it yields its boolean result and the new contents of the
destination buffer. -/
abbrev Transcoder := List Nat → Nat → List Nat → Bool × List Nat

/-- One pass through the body of the `while` loop of `readFromMIDILoop`. -/
def readFromMIDIIteration (k : NdkConsts) (TranscodeMIDI1_UMP : Transcoder)
    (outputPort : Nat) (r : ReceiveResult) (s : BridgeState) : BridgeState × List Event :=
  let t0 := [Event.AMidiOutputPort_receive outputPort MAX_BYTES_TO_RECEIVE]
  let p1 : BridgeState × List Event :=
    if r.numMessagesReceived < 0 then
      ({ s with sMIDIReading := false },
        t0 ++ [LOGW "Failure receiving MIDI data, error: %zd", Event.storeMIDIReading false])
    else (s, t0)
  let p2 : BridgeState × List Event :=
    if r.numMessagesReceived > 0 then
      if r.opcode = k.AMIDI_OPCODE_DATA then
        let t := p1.2 ++ [LOGI "MIDI received, numMsg: %zd, numBytes: %zd"]
        if p1.1.sNetUMPHandler ≠ 0 then
          let tc := TranscodeMIDI1_UMP r.incomingMessage r.numBytesReceived p1.1.sUMPMsg
          let s2 := { p1.1 with sUMPMsg := tc.2 }
          if tc.1 then
            (s2, t ++ [Event.SendUMPMessage s2.sNetUMPHandler s2.sUMPMsg])
          else (s2, t)
        else (p1.1, t)
      else p1
    else p1
  (p2.1, p2.2 ++ [Event.usleep 1000])

/-- The `while (sMIDIReading)` loop of `readFromMIDILoop`, run on the results
of the successive receive calls.  `none` when the results run out while the
flag is still set. -/
def readFromMIDIWhile (k : NdkConsts) (TranscodeMIDI1_UMP : Transcoder) (outputPort : Nat) :
    List ReceiveResult → BridgeState → Option (BridgeState × List Event)
  | [], s => if s.sMIDIReading then none else some (s, [])
  | r :: rest, s =>
    if s.sMIDIReading then
      let p := readFromMIDIIteration k TranscodeMIDI1_UMP outputPort r s
      match readFromMIDIWhile k TranscodeMIDI1_UMP outputPort rest p.1 with
      | none => none
      | some q => some (q.1, p.2 ++ q.2)
    else some (s, [])

/-- Entry of `readFromMIDILoop`, up to the first test of the loop condition. -/
def readFromMIDILoop_enter (s : BridgeState) : BridgeState × List Event :=
  ({ s with sMIDIReading := true },
    [LOGI "--- Reading from MIDI thread started", Event.storeMIDIReading true])

/-- Thread function `readFromMIDILoop`. -/
def readFromMIDILoop (k : NdkConsts) (TranscodeMIDI1_UMP : Transcoder)
    (rs : List ReceiveResult) (s : BridgeState) : Option (BridgeState × List Event) :=
  let outputPort := s.sMidiOutputPort
  let p := readFromMIDILoop_enter s
  match readFromMIDIWhile k TranscodeMIDI1_UMP outputPort rs p.1 with
  | none => none
  | some q => some (q.1, p.2 ++ q.2 ++ [LOGI "--- Reading from MIDI thread finished"])

/-- Entry of `readFromNetworkLoop`, up to the first test of the loop condition;
the boolean tells whether the loop is entered. -/
def readFromNetworkLoop_enter (s : BridgeState) : BridgeState × List Event × Bool :=
  if s.sNetUMPHandler = 0 then
    (s, [LOGE "NetUMP instance is not ready!"], false)
  else
    ({ s with sNetworkReading := true },
      [LOGI "--- Reading from network thread started", Event.storeNetworkReading true], true)

/-- One pass through the body of the `while` loop of `readFromNetworkLoop`.
`arrivals` are the packets for which `RunSession` invokes the callback, each
with the value the send to the input port returns. -/
def readFromNetworkIteration (arrivals : List (List Nat × Int)) (s : BridgeState) :
    List Event :=
  (if s.sNetUMPHandler ≠ 0 then
      Event.RunSession s.sNetUMPHandler
        :: (arrivals.map (fun a => onUMPMessage s a.1 a.2)).flatten
    else [])
    ++ [Event.usleep 1000]

/-- JNI function `isRunning`. -/
def isRunning (s : BridgeState) : Bool := s.sMIDIReading && s.sNetworkReading

/-- Arguments of `startProcessingMidi`; `destIP` stands for the value of
`ntohl(inet_addr(destHost))`. -/
structure StartArgs where
  midiDeviceObj : Nat
  outPort : Int
  inPort : Int
  destIP : Int
  destPort : Int
  endpointName : String

/-- What the calls made by `startProcessingMidi` give back.  A call with an
out-parameter maps the current contents of the variable to the contents after
the call. -/
structure StartEnv where
  AMidiDevice_fromJava : Nat → Nat
  AMidiOutputPort_open : Nat → Int × Nat
  AMidiInputPort_open : Nat → Int × Nat
  newCNetUMPHandler : Nat
  InitiateSession : Int
  readFromMIDIThread : Nat
  readFromNetworkThread : Nat

/-- JNI function `startProcessingMidi`. -/
def startProcessingMidi (k : NdkConsts) (env : StartEnv) (a : StartArgs) (s : BridgeState) :
    BridgeState × List Event :=
  let t0 := [LOGI "startProcessingMidi called"]
  if s.sMIDIReading || s.sNetworkReading then
    (s, t0 ++ [LOGE "Cannot start, threads are already running"])
  else
    let s1 := { s with sNativeMidiDevice := env.AMidiDevice_fromJava s.sNativeMidiDevice }
    let t1 := t0 ++ [Event.AMidiDevice_fromJava a.midiDeviceObj]
    let out := env.AMidiOutputPort_open s1.sMidiOutputPort
    let s2 := { s1 with sMidiOutputPort := out.2 }
    let t2 := t1 ++ [Event.AMidiOutputPort_open s1.sNativeMidiDevice a.outPort]
    if out.1 ≠ k.AMEDIA_OK then
      (s2, t2 ++ [LOGE "Could not open output destPort %d, error: %d"])
    else
      let inp := env.AMidiInputPort_open s2.sMidiInputPort
      let s3 := { s2 with sMidiInputPort := inp.2 }
      let t3 := t2 ++ [Event.AMidiInputPort_open s2.sNativeMidiDevice a.inPort]
      if inp.1 ≠ k.AMEDIA_OK then
        (s3, t3 ++ [LOGE "Could not open input destPort %d, error: %d"])
      else
        let s4 := { s3 with sNetUMPHandler := env.newCNetUMPHandler }
        let t4 := t3 ++ [Event.newCNetUMPHandler]
        if s4.sNetUMPHandler = 0 then
          (s4, t4 ++ [LOGE "Could not create NetUMP instance!"])
        else
          let t5 := t4 ++
            [Event.SetProductInstanceID s4.sNetUMPHandler "ZNK_001",
             Event.SetEndpointName s4.sNetUMPHandler a.endpointName,
             Event.InitiateSession s4.sNetUMPHandler a.destIP a.destPort 5504 true]
          if env.InitiateSession < 0 then
            ({ s4 with sNetUMPHandler := 0 },
              t5 ++ [LOGE "Could not initiate NetUMP session, error: %d",
                     Event.deleteCNetUMPHandler s4.sNetUMPHandler])
          else
            ({ s4 with sReadFromMIDIThread := env.readFromMIDIThread,
                       sReadFromNetworkThread := env.readFromNetworkThread },
              t5 ++ [Event.pthread_create .readFromMIDI,
                     Event.pthread_create .readFromNetwork])

/-- JNI function `stopProcessingMidi`. -/
def stopProcessingMidi (s : BridgeState) : BridgeState × List Event :=
  if !s.sMIDIReading || !s.sNetworkReading then
    (s, [LOGE "Cannot stop, threads are not running"])
  else
    let t0 := [Event.CloseSession s.sNetUMPHandler,
               Event.storeNetworkReading false,
               Event.storeMIDIReading false,
               Event.pthread_join .readFromMIDI s.sReadFromMIDIThread,
               Event.pthread_join .readFromNetwork s.sReadFromNetworkThread]
    let s1 := { s with sNetworkReading := false, sMIDIReading := false }
    let p2 : BridgeState × List Event :=
      if s1.sMidiInputPort ≠ 0 then
        ({ s1 with sMidiInputPort := 0 }, t0 ++ [Event.AMidiInputPort_close s1.sMidiInputPort])
      else (s1, t0)
    let p3 : BridgeState × List Event :=
      if p2.1.sMidiOutputPort ≠ 0 then
        ({ p2.1 with sMidiOutputPort := 0 },
          p2.2 ++ [Event.AMidiOutputPort_close p2.1.sMidiOutputPort])
      else p2
    let p4 : BridgeState × List Event :=
      if p3.1.sNativeMidiDevice ≠ 0 then
        ({ p3.1 with sNativeMidiDevice := 0 },
          p3.2 ++ [Event.AMidiDevice_release p3.1.sNativeMidiDevice])
      else p3
    let p5 : BridgeState × List Event :=
      if p4.1.sNetUMPHandler ≠ 0 then
        ({ p4.1 with sNetUMPHandler := 0 },
          p4.2 ++ [Event.deleteCNetUMPHandler p4.1.sNetUMPHandler])
      else p4
    (p5.1, p5.2 ++ [LOGI "All threads stopped and MIDI device released"])

/-- Recogniser for sends to the local input port. -/
def Event.isInputPortSend : Event → Bool
  | .AMidiInputPort_send _ _ _ => true
  | _ => false

/-- Recogniser for warnings. -/
def Event.isWarning : Event → Bool
  | .log .warn _ => true
  | _ => false

/-- Recogniser for packets handed to the session. -/
def Event.isSendUMPMessage : Event → Bool
  | .SendUMPMessage _ _ => true
  | _ => false

/-- Recogniser for calls that acquire a resource: opening a port, constructing
a session, creating a thread. -/
def Event.isAcquire : Event → Bool
  | .AMidiOutputPort_open _ _ => true
  | .AMidiInputPort_open _ _ => true
  | .newCNetUMPHandler => true
  | .pthread_create _ => true
  | _ => false

/-- Recogniser for calls that give a resource back or wait for a thread. -/
def Event.isRelease : Event → Bool
  | .CloseSession _ => true
  | .pthread_join _ _ => true
  | .AMidiInputPort_close _ => true
  | .AMidiOutputPort_close _ => true
  | .AMidiDevice_release _ => true
  | .deleteCNetUMPHandler _ => true
  | _ => false

/-- The packets handed to the session in a trace, in order. -/
def sentUMPMessages (tr : List Event) : List Event := tr.filter Event.isSendUMPMessage

/-- The sends to the local input port in a trace, in order. -/
def inputPortSends (tr : List Event) : List Event := tr.filter Event.isInputPortSend

/-- The values the NDK headers give the two constants. -/
def ndkConsts : NdkConsts where
  AMEDIA_OK := 0
  AMIDI_OPCODE_DATA := 1

/-- Arguments of a start request: ports 0 and 0 of device object 1, destination
127.0.0.1 port 5504. -/
def exampleArgs : StartArgs where
  midiDeviceObj := 1
  outPort := 0
  inPort := 0
  destIP := 0x7F000001
  destPort := 5504
  endpointName := "TestEndpoint"

/-- Every acquisition succeeds. -/
def envAllSucceed : StartEnv where
  AMidiDevice_fromJava := fun _ => 0x7000
  AMidiOutputPort_open := fun _ => (0, 0x7001)
  AMidiInputPort_open := fun _ => (0, 0x7002)
  newCNetUMPHandler := 0x7003
  InitiateSession := 0
  readFromMIDIThread := 11
  readFromNetworkThread := 12

/-- Every acquisition succeeds again, with fresh handles. -/
def envAllSucceedAgain : StartEnv where
  AMidiDevice_fromJava := fun _ => 0x8000
  AMidiOutputPort_open := fun _ => (0, 0x8001)
  AMidiInputPort_open := fun _ => (0, 0x8002)
  newCNetUMPHandler := 0x8003
  InitiateSession := 0
  readFromMIDIThread := 21
  readFromNetworkThread := 22

/-- The output port opens, the input port does not and its variable is left
as it was. -/
def envInputPortFails : StartEnv :=
  { envAllSucceed with AMidiInputPort_open := fun p => (-1, p) }

/-- Both ports open and the session is constructed, `InitiateSession` fails. -/
def envSessionFails : StartEnv :=
  { envAllSucceed with InitiateSession := -1 }

/-- A state in which the bridge runs: every handle set, both flags set. -/
def runningExample : BridgeState where
  sMidiOutputPort := 0x7001
  sMidiInputPort := 0x7002
  sNativeMidiDevice := 0x7000
  sReadFromMIDIThread := 11
  sReadFromNetworkThread := 12
  sNetUMPHandler := 0x7003
  sUMPMsg := [0, 0, 0, 0]
  sMIDIReading := true
  sNetworkReading := true

/-- The state `startProcessingMidi` returns with when every acquisition
succeeded: the pump threads are created and have not run yet. -/
def startedExample : BridgeState :=
  { runningExample with sMIDIReading := false, sNetworkReading := false }

/-- A receive that failed with status `-1`. -/
def receiveFailed : ReceiveResult where
  numMessagesReceived := -1
  opcode := 0
  incomingMessage := []
  numBytesReceived := 0

/-- A transcoder that always succeeds with a fixed packet. -/
def exampleTranscoder : Transcoder := fun _ _ _ => (true, [0x20903C40, 0, 0, 0])

/-! ## Bit-level facts about the endpoint filter -/

theorem land_mask_eq_iff (w : Nat) (hw : w < 2 ^ 32) :
    w &&& 0xFFFF0000 = 0xF0000000 ↔ w / 2 ^ 16 = 0xF000 := by
  have h1 : w &&& 0xFFFF0000 = (w / 2 ^ 16) * 2 ^ 16 := by
    have e : (0xFFFF0000 : Nat) = (2 ^ 16 - 1) <<< 16 := by decide
    rw [e, ← Nat.shiftLeft_eq, ← Nat.shiftRight_eq_div_pow]
    apply Nat.eq_of_testBit_eq
    intro i
    simp only [Nat.testBit_and, Nat.testBit_shiftLeft, Nat.testBit_two_pow_sub_one,
      Nat.testBit_shiftRight]
    by_cases hi : 16 ≤ i
    · by_cases hj : i - 16 < 16
      · simp [hi, hj]
      · have h32 : 32 ≤ i := by omega
        have hlt : w < 2 ^ i := lt_of_lt_of_le hw (Nat.pow_le_pow_right (by decide) h32)
        simp [hi, hj, Nat.testBit_lt_two_pow hlt]
    · simp [hi]
  rw [h1]
  omega

theorem shiftRight_28_lt (w : Nat) (hw : w < 2 ^ 32) : w >>> 28 < 16 := by
  rw [Nat.shiftRight_eq_div_pow]
  omega

theorem sUMPSize_getD_mem (t : Nat) (ht : t < 16) :
    sUMPSize.getD t 0 = 1 ∨ sUMPSize.getD t 0 = 2 ∨ sUMPSize.getD t 0 = 3 ∨
      sUMPSize.getD t 0 = 4 := by
  interval_cases t <;> simp [sUMPSize]

/-! ## The message sizer -/

/-- C1: each message type `t` in `0..15` is mapped by `sUMPSize` to the `t`-th
entry of the table of the specification; for a 32-bit first word `w` the index
`w >> 28` used by `onUMPMessage` is a valid index of the table, and the length
looked up is 1, 2, 3 or 4 words, hence at most 16 bytes. -/
theorem sUMPSize_lookup_in_bounds (w : Nat) (hw : w < 2 ^ 32) :
    (∀ t : Fin 16,
        sUMPSize[t.val]? = [1, 1, 1, 2, 2, 4, 1, 1, 2, 2, 2, 3, 3, 4, 4, 4][t.val]?) ∧
      w >>> 28 < sUMPSize.length ∧
      sUMPSize[w >>> 28]? = some (sUMPSize.getD (w >>> 28) 0) ∧
      sUMPSize.getD (w >>> 28) 0 ∈ [1, 2, 3, 4] ∧
      sUMPSize.getD (w >>> 28) 0 * 4 ≤ 16 := by
  have hi : w >>> 28 < 16 := shiftRight_28_lt w hw
  have hlen : sUMPSize.length = 16 := rfl
  refine ⟨fun t => rfl, by omega, ?_, ?_, ?_⟩
  · rw [List.getD_eq_getElem?_getD, List.getElem?_eq_getElem (by omega)]
    rfl
  · rcases sUMPSize_getD_mem _ hi with h | h | h | h <;> rw [h] <;> decide
  · rcases sUMPSize_getD_mem _ hi with h | h | h | h <;> omega

theorem sUMPSize_lookup_in_bounds_witness :
    (0x40913C64 : Nat) < 2 ^ 32 ∧ sUMPSize[0x40913C64 >>> 28]? = some 2 :=
  ⟨by decide, (sUMPSize_lookup_in_bounds 0x40913C64 (by decide)).2.2.1⟩

/-! ## The receive callback -/

theorem onUMPMessage_filtered (s : BridgeState) (data : List Nat) (sendResult : Int)
    (h : data.getD 0 0 &&& 0xFFFF0000 = 0xF0000000) :
    onUMPMessage s data sendResult = [LOGI "UMP Endpoint related UMP message"] := by
  unfold onUMPMessage
  rw [if_pos h]

theorem onUMPMessage_forwarded (s : BridgeState) (data : List Nat) (sendResult : Int)
    (h : data.getD 0 0 &&& 0xFFFF0000 ≠ 0xF0000000) :
    onUMPMessage s data sendResult =
      [LOGI "UMP Message arrived, size: %d",
       Event.AMidiInputPort_send s.sMidiInputPort
         (data.take (sUMPSize.getD (data.getD 0 0 >>> 28) 0))
         (sUMPSize.getD (data.getD 0 0 >>> 28) 0 * 4)]
        ++ (if toUnsigned sendResult < sUMPSize.getD (data.getD 0 0 >>> 28) 0 then
              [LOGW "Could not send message, retval: %d"]
            else []) := by
  unfold onUMPMessage
  rw [if_neg h]

theorem inputPortSends_forwarded (s : BridgeState) (data : List Nat) (sendResult : Int)
    (h : data.getD 0 0 &&& 0xFFFF0000 ≠ 0xF0000000) :
    inputPortSends (onUMPMessage s data sendResult) =
      [Event.AMidiInputPort_send s.sMidiInputPort
         (data.take (sUMPSize.getD (data.getD 0 0 >>> 28) 0))
         (sUMPSize.getD (data.getD 0 0 >>> 28) 0 * 4)] := by
  rw [onUMPMessage_forwarded s data sendResult h]
  by_cases hlt : toUnsigned sendResult < sUMPSize.getD (data.getD 0 0 >>> 28) 0 <;>
    simp [inputPortSends, hlt, LOGI, LOGW, Event.isInputPortSend]

theorem inputPortSends_filtered (s : BridgeState) (data : List Nat) (sendResult : Int)
    (h : data.getD 0 0 &&& 0xFFFF0000 = 0xF0000000) :
    inputPortSends (onUMPMessage s data sendResult) = [] := by
  rw [onUMPMessage_filtered s data sendResult h]
  simp [inputPortSends, LOGI, Event.isInputPortSend]

/-- C2: for a 4-word packet with first word `w0`, the callback makes exactly one
send to the local input port iff `(w0 & 0xFFFF0000) != 0xF0000000` and no send
otherwise; the one send asks for `4 * sUMPSize[w0 >> 28]` bytes, which are the
first `sUMPSize[w0 >> 28]` words of the packet; a packet of message type 1
gives one send of 4 bytes, the first word. -/
theorem onUMPMessage_sends_once_iff (s : BridgeState) (w0 w1 w2 w3 : Nat) (sendResult : Int) :
    ((inputPortSends (onUMPMessage s [w0, w1, w2, w3] sendResult)).length = 1 ↔
        w0 &&& 0xFFFF0000 ≠ 0xF0000000) ∧
      (w0 &&& 0xFFFF0000 = 0xF0000000 →
        inputPortSends (onUMPMessage s [w0, w1, w2, w3] sendResult) = []) ∧
      (w0 &&& 0xFFFF0000 ≠ 0xF0000000 →
        inputPortSends (onUMPMessage s [w0, w1, w2, w3] sendResult) =
          [Event.AMidiInputPort_send s.sMidiInputPort
            ([w0, w1, w2, w3].take (sUMPSize.getD (w0 >>> 28) 0))
            (4 * sUMPSize.getD (w0 >>> 28) 0)]) ∧
      (w0 >>> 28 = 1 →
        inputPortSends (onUMPMessage s [w0, w1, w2, w3] sendResult) =
          [Event.AMidiInputPort_send s.sMidiInputPort [w0] 4]) := by
  have hfil := inputPortSends_filtered s [w0, w1, w2, w3] sendResult
  have hfwd := inputPortSends_forwarded s [w0, w1, w2, w3] sendResult
  simp only [List.getD_cons_zero] at hfil hfwd
  refine ⟨?_, hfil, ?_, ?_⟩
  · by_cases h : w0 &&& 0xFFFF0000 = 0xF0000000
    · simp [hfil h, h]
    · simp [hfwd h, h]
  · intro h
    rw [hfwd h, Nat.mul_comm]
  · intro h1
    have hdiv : w0 / 2 ^ 28 = 1 := by rw [← Nat.shiftRight_eq_div_pow]; exact h1
    have hw : w0 < 2 ^ 32 := by omega
    have h : w0 &&& 0xFFFF0000 ≠ 0xF0000000 := by
      rw [Ne, land_mask_eq_iff w0 hw]
      omega
    rw [hfwd h, h1]
    rfl

theorem onUMPMessage_sends_once_iff_witness :
    inputPortSends (onUMPMessage initialState [0x10C03C00, 0, 0, 0] 4) =
      [Event.AMidiInputPort_send 0 [0x10C03C00] 4] :=
  (onUMPMessage_sends_once_iff initialState 0x10C03C00 0 0 0 4).2.2.2 (by decide)

/-- C8, as the code has it: for a 32-bit first word the callback makes no send
exactly when bits 31..16 of the word are `0xF000`, that is top byte `0xF0` and
bits 23..16 zero; the low halfword is not looked at. -/
theorem onUMPMessage_filtered_iff_upper_halfword (s : BridgeState) (w0 w1 w2 w3 : Nat)
    (hw : w0 < 2 ^ 32) (sendResult : Int) :
    (inputPortSends (onUMPMessage s [w0, w1, w2, w3] sendResult) = [] ↔
        w0 >>> 16 = 0xF000) ∧
      (w0 >>> 16 = 0xF000 →
        onUMPMessage s [w0, w1, w2, w3] sendResult =
          [LOGI "UMP Endpoint related UMP message"]) := by
  have hiff := land_mask_eq_iff w0 hw
  rw [← Nat.shiftRight_eq_div_pow] at hiff
  constructor
  · by_cases h : w0 &&& 0xFFFF0000 = 0xF0000000
    · have hf := inputPortSends_filtered s [w0, w1, w2, w3] sendResult h
      simp [hf, hiff.mp h]
    · have hf := inputPortSends_forwarded s [w0, w1, w2, w3] sendResult h
      have hn : ¬ w0 >>> 16 = 0xF000 := fun h16 => h (hiff.mpr h16)
      simp [hf, hn]
  · intro h16
    exact onUMPMessage_filtered s [w0, w1, w2, w3] sendResult (hiff.mpr h16)

theorem onUMPMessage_filtered_iff_upper_halfword_witness :
    (0xF0001234 : Nat) < 2 ^ 32 ∧ (0xF0001234 : Nat) >>> 16 = 0xF000 ∧
      inputPortSends (onUMPMessage initialState [0xF0001234, 0, 0, 0] 0) = [] :=
  ⟨by decide, by decide,
    (onUMPMessage_filtered_iff_upper_halfword initialState 0xF0001234 0 0 0
      (by decide) 0).1.mpr (by decide)⟩

/-- C8, as the specification words the pattern: the first word `0xF0010000` has
top byte `0xF0` and a zero low halfword, and the callback forwards the packet,
all four words of it. -/
theorem onUMPMessage_top_byte_pattern_forwarded :
    (0xF0010000 : Nat) < 2 ^ 32 ∧ (0xF0010000 : Nat) >>> 24 = 0xF0 ∧
      (0xF0010000 : Nat) &&& 0xFFFF = 0 ∧
      inputPortSends (onUMPMessage initialState [0xF0010000, 0, 0, 0] 16) =
        [Event.AMidiInputPort_send 0 [0xF0010000, 0, 0, 0] 16] := by
  refine ⟨by decide, by decide, by decide, ?_⟩
  rw [inputPortSends_forwarded _ _ _ (by decide)]
  rfl

/-- The warning of `onUMPMessage` is logged exactly when the value returned by
the send, read as an `unsigned int`, is below the length in words. -/
theorem onUMPMessage_warning_iff (s : BridgeState) (data : List Nat) (sendResult : Int)
    (h : data.getD 0 0 &&& 0xFFFF0000 ≠ 0xF0000000) :
    LOGW "Could not send message, retval: %d" ∈ onUMPMessage s data sendResult ↔
      toUnsigned sendResult < sUMPSize.getD (data.getD 0 0 >>> 28) 0 := by
  rw [onUMPMessage_forwarded s data sendResult h]
  by_cases hlt : toUnsigned sendResult < sUMPSize.getD (data.getD 0 0 >>> 28) 0 <;>
    simp [hlt, LOGI, LOGW]

/-- C9: a packet of message type 1 asks for 4 bytes.  When the send fails with
`-1`, and when it sends only 2 of the 4 bytes, the callback makes its one send
and logs no warning. -/
theorem onUMPMessage_short_send_no_warning :
    onUMPMessage initialState [0x10C03C00, 0, 0, 0] (-1) =
        [LOGI "UMP Message arrived, size: %d",
         Event.AMidiInputPort_send 0 [0x10C03C00] 4] ∧
      onUMPMessage initialState [0x10C03C00, 0, 0, 0] 2 =
        [LOGI "UMP Message arrived, size: %d",
         Event.AMidiInputPort_send 0 [0x10C03C00] 4] ∧
      (onUMPMessage initialState [0x10C03C00, 0, 0, 0] (-1)).filter Event.isWarning = [] ∧
      (onUMPMessage initialState [0x10C03C00, 0, 0, 0] 2).filter Event.isWarning = [] := by
  have h1 : onUMPMessage initialState [0x10C03C00, 0, 0, 0] (-1) =
      [LOGI "UMP Message arrived, size: %d",
       Event.AMidiInputPort_send 0 [0x10C03C00] 4] := by
    rw [onUMPMessage_forwarded _ _ _ (by decide)]
    rfl
  have h2 : onUMPMessage initialState [0x10C03C00, 0, 0, 0] 2 =
      [LOGI "UMP Message arrived, size: %d",
       Event.AMidiInputPort_send 0 [0x10C03C00] 4] := by
    rw [onUMPMessage_forwarded _ _ _ (by decide)]
    rfl
  refine ⟨h1, h2, ?_, ?_⟩
  · rw [h1]; rfl
  · rw [h2]; rfl

/-! ## The inbound pump -/

theorem readFromMIDIWhile_flag_clear (k : NdkConsts) (tc : Transcoder) (outputPort : Nat)
    (rs : List ReceiveResult) (s : BridgeState) (h : s.sMIDIReading = false) :
    readFromMIDIWhile k tc outputPort rs s = some (s, []) := by
  cases rs <;> simp [readFromMIDIWhile, h]

/-- C10: one pass of the loop of `readFromMIDILoop` hands exactly one packet to
the session iff the receive status is positive, the opcode is the data opcode,
a session exists and the transcoder succeeds, and then it is the transcoder's
output; otherwise it hands over none.  On a negative status the pass changes
the state in `sMIDIReading` only, which it clears, and the loop ends with that
pass whatever would be received next.  On a status of zero or more the flag,
the other flag and all handles are as before, and the loop goes on with the
next receive. -/
theorem readFromMIDIIteration_forwards_iff (k : NdkConsts) (tc : Transcoder)
    (outputPort : Nat) (r : ReceiveResult) (s : BridgeState) :
    ((sentUMPMessages (readFromMIDIIteration k tc outputPort r s).2).length = 1 ↔
        (0 < r.numMessagesReceived ∧ r.opcode = k.AMIDI_OPCODE_DATA ∧ s.sNetUMPHandler ≠ 0 ∧
          (tc r.incomingMessage r.numBytesReceived s.sUMPMsg).1 = true)) ∧
      ((0 < r.numMessagesReceived ∧ r.opcode = k.AMIDI_OPCODE_DATA ∧ s.sNetUMPHandler ≠ 0 ∧
          (tc r.incomingMessage r.numBytesReceived s.sUMPMsg).1 = true) →
        sentUMPMessages (readFromMIDIIteration k tc outputPort r s).2 =
          [Event.SendUMPMessage s.sNetUMPHandler
            (tc r.incomingMessage r.numBytesReceived s.sUMPMsg).2]) ∧
      (¬ (0 < r.numMessagesReceived ∧ r.opcode = k.AMIDI_OPCODE_DATA ∧ s.sNetUMPHandler ≠ 0 ∧
          (tc r.incomingMessage r.numBytesReceived s.sUMPMsg).1 = true) →
        sentUMPMessages (readFromMIDIIteration k tc outputPort r s).2 = []) ∧
      (r.numMessagesReceived < 0 →
        (readFromMIDIIteration k tc outputPort r s).1 = { s with sMIDIReading := false } ∧
        ∀ rest, s.sMIDIReading = true →
          readFromMIDIWhile k tc outputPort (r :: rest) s =
            some (readFromMIDIIteration k tc outputPort r s)) ∧
      (0 ≤ r.numMessagesReceived →
        (readFromMIDIIteration k tc outputPort r s).1.sMIDIReading = s.sMIDIReading ∧
        (readFromMIDIIteration k tc outputPort r s).1.sNetworkReading = s.sNetworkReading ∧
        (readFromMIDIIteration k tc outputPort r s).1.sMidiOutputPort = s.sMidiOutputPort ∧
        (readFromMIDIIteration k tc outputPort r s).1.sMidiInputPort = s.sMidiInputPort ∧
        (readFromMIDIIteration k tc outputPort r s).1.sNativeMidiDevice = s.sNativeMidiDevice ∧
        (readFromMIDIIteration k tc outputPort r s).1.sNetUMPHandler = s.sNetUMPHandler ∧
        ∀ rest, s.sMIDIReading = true →
          readFromMIDIWhile k tc outputPort (r :: rest) s =
            (readFromMIDIWhile k tc outputPort rest
                (readFromMIDIIteration k tc outputPort r s).1).map
              (fun q => (q.1, (readFromMIDIIteration k tc outputPort r s).2 ++ q.2))) := by
  have hsends : sentUMPMessages (readFromMIDIIteration k tc outputPort r s).2 =
      if 0 < r.numMessagesReceived ∧ r.opcode = k.AMIDI_OPCODE_DATA ∧ s.sNetUMPHandler ≠ 0 ∧
          (tc r.incomingMessage r.numBytesReceived s.sUMPMsg).1 = true then
        [Event.SendUMPMessage s.sNetUMPHandler
          (tc r.incomingMessage r.numBytesReceived s.sUMPMsg).2]
      else [] := by
    unfold readFromMIDIIteration sentUMPMessages
    by_cases hneg : r.numMessagesReceived < 0
    · have hpos : ¬ 0 < r.numMessagesReceived := by omega
      simp [hneg, hpos, LOGW, Event.isSendUMPMessage]
    · by_cases hpos : 0 < r.numMessagesReceived
      · by_cases hop : r.opcode = k.AMIDI_OPCODE_DATA
        · by_cases hh : s.sNetUMPHandler = 0
          · simp [hneg, hpos, hop, hh, LOGI, Event.isSendUMPMessage]
          · by_cases htc : (tc r.incomingMessage r.numBytesReceived s.sUMPMsg).1 = true
            · simp [hneg, hpos, hop, hh, htc, LOGI, Event.isSendUMPMessage]
            · simp [hneg, hpos, hop, hh, htc, LOGI, Event.isSendUMPMessage]
        · simp [hneg, hpos, hop, Event.isSendUMPMessage]
      · simp [hneg, hpos, Event.isSendUMPMessage]
  refine ⟨?_, ?_, ?_, ?_, ?_⟩
  · rw [hsends]
    split <;> simp_all
  · intro hc
    rw [hsends, if_pos hc]
  · intro hc
    rw [hsends, if_neg hc]
  · intro hneg
    have hpos : ¬ 0 < r.numMessagesReceived := by omega
    have hst : (readFromMIDIIteration k tc outputPort r s).1 = { s with sMIDIReading := false } := by
      simp [readFromMIDIIteration, hneg, hpos]
    refine ⟨hst, ?_⟩
    intro rest hrun
    have hclr : (readFromMIDIIteration k tc outputPort r s).1.sMIDIReading = false := by
      rw [hst]
    simp [readFromMIDIWhile, hrun, readFromMIDIWhile_flag_clear k tc outputPort rest _ hclr]
  · intro hnn
    have hneg : ¬ r.numMessagesReceived < 0 := by omega
    refine ⟨?_, ?_, ?_, ?_, ?_, ?_, ?_⟩
    all_goals try (unfold readFromMIDIIteration; simp only [hneg, if_false]; split_ifs <;> rfl)
    intro rest hrun
    simp only [readFromMIDIWhile, hrun, if_true]
    cases readFromMIDIWhile k tc outputPort rest (readFromMIDIIteration k tc outputPort r s).1 <;>
      rfl

theorem readFromMIDIIteration_forwards_iff_witness :
    (readFromMIDIIteration ndkConsts exampleTranscoder 0x7001 receiveFailed runningExample).1 =
        { runningExample with sMIDIReading := false } ∧
      readFromMIDIWhile ndkConsts exampleTranscoder 0x7001 [receiveFailed, receiveFailed]
          runningExample =
        some (readFromMIDIIteration ndkConsts exampleTranscoder 0x7001 receiveFailed
          runningExample) :=
  have h := (readFromMIDIIteration_forwards_iff ndkConsts exampleTranscoder 0x7001
    receiveFailed runningExample).2.2.2.1 (by decide)
  ⟨h.1, h.2 [receiveFailed] rfl⟩

/-! ## Stopping -/

/-- C5: in a state with both running flags set and the two ports, the device
and the session non-null, `stopProcessingMidi` calls `CloseSession`, clears the
network flag and the MIDI flag, joins the MIDI thread and the network thread,
closes the input port and then the output port, releases the device and deletes
the session, in this order; it returns with all four handles null and both
flags false. -/
theorem stopProcessingMidi_running_order (s : BridgeState)
    (hMIDI : s.sMIDIReading = true) (hNet : s.sNetworkReading = true)
    (hIn : s.sMidiInputPort ≠ 0) (hOut : s.sMidiOutputPort ≠ 0)
    (hDev : s.sNativeMidiDevice ≠ 0) (hSes : s.sNetUMPHandler ≠ 0) :
    stopProcessingMidi s =
      ({ s with sMidiOutputPort := 0, sMidiInputPort := 0, sNativeMidiDevice := 0,
                sNetUMPHandler := 0, sMIDIReading := false, sNetworkReading := false },
        [Event.CloseSession s.sNetUMPHandler,
         Event.storeNetworkReading false,
         Event.storeMIDIReading false,
         Event.pthread_join .readFromMIDI s.sReadFromMIDIThread,
         Event.pthread_join .readFromNetwork s.sReadFromNetworkThread,
         Event.AMidiInputPort_close s.sMidiInputPort,
         Event.AMidiOutputPort_close s.sMidiOutputPort,
         Event.AMidiDevice_release s.sNativeMidiDevice,
         Event.deleteCNetUMPHandler s.sNetUMPHandler,
         LOGI "All threads stopped and MIDI device released"]) := by
  simp [stopProcessingMidi, hMIDI, hNet, hIn, hOut, hDev, hSes]

theorem stopProcessingMidi_running_order_witness :
    (stopProcessingMidi runningExample).1 =
        { initialState with sReadFromMIDIThread := 11, sReadFromNetworkThread := 12 } ∧
      (stopProcessingMidi runningExample).2 =
        [Event.CloseSession 0x7003,
         Event.storeNetworkReading false,
         Event.storeMIDIReading false,
         Event.pthread_join .readFromMIDI 11,
         Event.pthread_join .readFromNetwork 12,
         Event.AMidiInputPort_close 0x7002,
         Event.AMidiOutputPort_close 0x7001,
         Event.AMidiDevice_release 0x7000,
         Event.deleteCNetUMPHandler 0x7003,
         LOGI "All threads stopped and MIDI device released"] := by
  have h := stopProcessingMidi_running_order runningExample rfl rfl
    (by decide) (by decide) (by decide) (by decide)
  exact ⟨congrArg Prod.fst h, congrArg Prod.snd h⟩

/-- C7: when at least one of the two running flags is false,
`stopProcessingMidi` only logs that it cannot stop: the state is returned as it
was, and the trace holds no `CloseSession`, no join, no close, no release and
no delete.  The never-started state, with all handles null, is such a state. -/
theorem stopProcessingMidi_not_running_noop (s : BridgeState)
    (h : s.sMIDIReading = false ∨ s.sNetworkReading = false) :
    stopProcessingMidi s = (s, [LOGE "Cannot stop, threads are not running"]) ∧
      (stopProcessingMidi s).2.filter Event.isRelease = [] ∧
      stopProcessingMidi initialState =
        (initialState, [LOGE "Cannot stop, threads are not running"]) := by
  have hgen : ∀ t : BridgeState, t.sMIDIReading = false ∨ t.sNetworkReading = false →
      stopProcessingMidi t = (t, [LOGE "Cannot stop, threads are not running"]) := by
    intro t ht
    rcases ht with ht | ht <;> simp [stopProcessingMidi, ht]
  refine ⟨hgen s h, ?_, hgen initialState (Or.inl rfl)⟩
  rw [hgen s h]
  rfl

theorem stopProcessingMidi_not_running_noop_witness :
    stopProcessingMidi { runningExample with sMIDIReading := false } =
      ({ runningExample with sMIDIReading := false },
        [LOGE "Cannot stop, threads are not running"]) :=
  (stopProcessingMidi_not_running_noop { runningExample with sMIDIReading := false }
    (Or.inl rfl)).1

/-! ## Starting -/

theorem startProcessingMidi_rejected (k : NdkConsts) (env : StartEnv) (a : StartArgs)
    (s : BridgeState) (h : s.sMIDIReading = true ∨ s.sNetworkReading = true) :
    startProcessingMidi k env a s =
      (s, [LOGI "startProcessingMidi called",
           LOGE "Cannot start, threads are already running"]) := by
  rcases h with h | h <;> simp [startProcessingMidi, h]

theorem startProcessingMidi_flags (k : NdkConsts) (env : StartEnv) (a : StartArgs)
    (s : BridgeState) :
    (startProcessingMidi k env a s).1.sMIDIReading = s.sMIDIReading ∧
      (startProcessingMidi k env a s).1.sNetworkReading = s.sNetworkReading := by
  simp only [startProcessingMidi]
  constructor <;> (split_ifs <;> rfl)

/-- C3: a start from the never-started state in which every acquisition
succeeds returns with both pump threads created and both running flags still
false.  A second start in that state is not rejected: it opens the output and
the input port again, constructs another session and creates two more threads,
and it overwrites the device, port, session and thread handles of the first. -/
theorem startProcessingMidi_twice_before_pumps_run :
    startProcessingMidi ndkConsts envAllSucceed exampleArgs initialState =
        (startedExample,
          [LOGI "startProcessingMidi called",
           Event.AMidiDevice_fromJava 1,
           Event.AMidiOutputPort_open 0x7000 0,
           Event.AMidiInputPort_open 0x7000 0,
           Event.newCNetUMPHandler,
           Event.SetProductInstanceID 0x7003 "ZNK_001",
           Event.SetEndpointName 0x7003 "TestEndpoint",
           Event.InitiateSession 0x7003 0x7F000001 5504 5504 true,
           Event.pthread_create .readFromMIDI,
           Event.pthread_create .readFromNetwork]) ∧
      startedExample.sMIDIReading = false ∧ startedExample.sNetworkReading = false ∧
      (startProcessingMidi ndkConsts envAllSucceedAgain exampleArgs startedExample).2.filter
          Event.isAcquire =
        [Event.AMidiOutputPort_open 0x8000 0,
         Event.AMidiInputPort_open 0x8000 0,
         Event.newCNetUMPHandler,
         Event.pthread_create .readFromMIDI,
         Event.pthread_create .readFromNetwork] ∧
      (startProcessingMidi ndkConsts envAllSucceedAgain exampleArgs startedExample).1 =
        { sMidiOutputPort := 0x8001, sMidiInputPort := 0x8002, sNativeMidiDevice := 0x8000,
          sReadFromMIDIThread := 21, sReadFromNetworkThread := 22, sNetUMPHandler := 0x8003,
          sUMPMsg := [0, 0, 0, 0], sMIDIReading := false, sNetworkReading := false } := by
  refine ⟨rfl, rfl, rfl, rfl, rfl⟩

/-- C4: a start from the never-started state in which the output port opens
and the input port does not returns with the output port open and the device
handle held, having closed and released nothing; a start in which
`InitiateSession` fails deletes the session and returns with both ports open
and the device handle held.  In both cases no thread is created, both flags are
false, and a stop that follows releases nothing. -/
theorem startProcessingMidi_failure_keeps_handles :
    startProcessingMidi ndkConsts envInputPortFails exampleArgs initialState =
        ({ initialState with sMidiOutputPort := 0x7001, sNativeMidiDevice := 0x7000 },
          [LOGI "startProcessingMidi called",
           Event.AMidiDevice_fromJava 1,
           Event.AMidiOutputPort_open 0x7000 0,
           Event.AMidiInputPort_open 0x7000 0,
           LOGE "Could not open input destPort %d, error: %d"]) ∧
      startProcessingMidi ndkConsts envSessionFails exampleArgs initialState =
        ({ initialState with sMidiOutputPort := 0x7001, sMidiInputPort := 0x7002,
                             sNativeMidiDevice := 0x7000 },
          [LOGI "startProcessingMidi called",
           Event.AMidiDevice_fromJava 1,
           Event.AMidiOutputPort_open 0x7000 0,
           Event.AMidiInputPort_open 0x7000 0,
           Event.newCNetUMPHandler,
           Event.SetProductInstanceID 0x7003 "ZNK_001",
           Event.SetEndpointName 0x7003 "TestEndpoint",
           Event.InitiateSession 0x7003 0x7F000001 5504 5504 true,
           LOGE "Could not initiate NetUMP session, error: %d",
           Event.deleteCNetUMPHandler 0x7003]) ∧
      (stopProcessingMidi
          (startProcessingMidi ndkConsts envInputPortFails exampleArgs initialState).1).2 =
        [LOGE "Cannot stop, threads are not running"] ∧
      (stopProcessingMidi
          (startProcessingMidi ndkConsts envSessionFails exampleArgs initialState).1).2 =
        [LOGE "Cannot stop, threads are not running"] := by
  refine ⟨rfl, rfl, rfl, rfl⟩

/-- C6: from the state a successful start leaves, the two pump threads set
their flags and the bridge runs.  The inbound pump then receives status `-1`
and clears `sMIDIReading`.  A stop in the resulting state only logs that it
cannot stop: ports, device and session stay as they were, non-null, and the
network flag stays set; a start in that state is rejected as well. -/
theorem stopProcessingMidi_after_pump_failure :
    (startProcessingMidi ndkConsts envAllSucceed exampleArgs initialState).1 = startedExample ∧
      (readFromNetworkLoop_enter (readFromMIDILoop_enter startedExample).1).1 =
        runningExample ∧
      (readFromMIDIIteration ndkConsts exampleTranscoder 0x7001 receiveFailed
          runningExample).1 = { runningExample with sMIDIReading := false } ∧
      stopProcessingMidi { runningExample with sMIDIReading := false } =
        ({ sMidiOutputPort := 0x7001, sMidiInputPort := 0x7002, sNativeMidiDevice := 0x7000,
           sReadFromMIDIThread := 11, sReadFromNetworkThread := 12, sNetUMPHandler := 0x7003,
           sUMPMsg := [0, 0, 0, 0], sMIDIReading := false, sNetworkReading := true },
          [LOGE "Cannot stop, threads are not running"]) ∧
      startProcessingMidi ndkConsts envAllSucceedAgain exampleArgs
          { runningExample with sMIDIReading := false } =
        ({ runningExample with sMIDIReading := false },
          [LOGI "startProcessingMidi called",
           LOGE "Cannot start, threads are already running"]) := by
  refine ⟨rfl, rfl, rfl, rfl, rfl⟩

end MidiNetForwarder
